import Mathlib

/-!
Verification development for the gocql OpenTelemetry instrumentation bridge
(`go.opentelemetry.io/contrib/instrumentation/github.com/gocql/gocql`).

The bridge maps three driver callback kinds (connect, query, batch) into span
lifecycles, attribute sets and metric recordings, with a functional-option
configuration mechanism and a session factory that installs observer adapters
onto a driver cluster configuration.  The repository snapshot contains only the
README, the integration tests and the example client; the adapter, policy,
configuration-builder and session-factory code is therefore modelled here from
the specification, faithful to its words, and the claims are settled against
that model.
-/

namespace Gocql

/-! ## Data model: host descriptors and extracted attributes -/

/-- Host liveness state enumeration, per the spec: one of UP, DOWN, UNKNOWN. -/
inductive HostState
  | up
  | down
  | unknown
deriving DecidableEq

/-- The string label of a host state, as placed in the host-state attribute. -/
def HostState.label : HostState → String
  | HostState.up => "UP"
  | HostState.down => "DOWN"
  | HostState.unknown => "UNKNOWN"

/-- Driver-supplied identification of the physical database node involved in an
event: address, port, protocol version, liveness.  Fields are optional because
the extractor must be robust to partial information. -/
structure HostDescriptor where
  address : Option String
  port : Option Int
  version : Option String
  live : Option Bool
deriving DecidableEq

/-- The fixed attribute set derived from a host descriptor. -/
structure HostAttributeSet where
  address : String
  port : Int
  version : String
  state : HostState
deriving DecidableEq

/-- Modelled from the spec: §4.1 Attribute Extractor (the extractor code is not
in the snapshot).  Given a host descriptor, returns a HostAttributeSet; never
fails; missing/zero fields map to empty string / zero / UNKNOWN rather than
raising an error; no side effects. -/
def extractHostAttributes (h : HostDescriptor) : HostAttributeSet :=
  { address := h.address.getD ""
    port := h.port.getD 0
    version := h.version.getD ""
    state :=
      match h.live with
      | some true => HostState.up
      | some false => HostState.down
      | none => HostState.unknown }

/-! ## Attribute values and span attribute keys -/

/-- A span attribute value: string, integer, or ordered string sequence. -/
inductive AttrValue
  | str (s : String)
  | int (i : Int)
  | strList (l : List String)
deriving DecidableEq

/-- Modelled from the spec: §6 stable attribute-key contract (the key constants
of the source, CassHostKey etc., are not in the snapshot). -/
def cassHostKey : String := "database-host"

/-- Modelled from the spec: §6, the database-port attribute key. -/
def cassPortKey : String := "database-port"

/-- Modelled from the spec: §6, the database-version attribute key. -/
def cassVersionKey : String := "database-version"

/-- Modelled from the spec: §6, the database-host-state attribute key. -/
def cassHostStateKey : String := "database-host-state"

/-- Modelled from the spec: §6, the statement-text attribute key (query only). -/
def cassStatementKey : String := "database-statement"

/-- Modelled from the spec: §6, the batch-statement-list attribute key (batch
only). -/
def cassBatchStatementsKey : String := "database-batch-statements"

/-- Look up an attribute value by key in an attribute list. -/
def lookupAttr (k : String) (attrs : List (String × AttrValue)) : Option AttrValue :=
  (attrs.find? (fun p => p.fst == k)).map Prod.snd

/-- Lower-casing, used for the case-insensitive host-state comparison of the
tests (`strings.ToLower`). -/
def strToLower (s : String) : String := String.mk (s.data.map Char.toLower)

/-! ## Span naming policy -/

/-- The three event kinds of the driver observer contract. -/
inductive EventKind
  | connect
  | query
  | batch
deriving DecidableEq

/-- Modelled from the spec: §6 span-name contract, literal "connect". -/
def cassConnectName : String := "connect"

/-- Modelled from the spec: §6 span-name contract, literal "query". -/
def cassQueryName : String := "query"

/-- Modelled from the spec: §6 span-name contract, literal "batch-query". -/
def cassBatchQueryName : String := "batch-query"

/-- Modelled from the spec: §4.2 Span Naming Policy — a pure total function
over the three-element event-kind enumeration. -/
def nameFor : EventKind → String
  | EventKind.connect => cassConnectName
  | EventKind.query => cassQueryName
  | EventKind.batch => cassBatchQueryName

/-! ## Observed events (driver-constructed, read-only to the adapter) -/

/-- Connect event: host descriptor and error-or-nil outcome.  It carries no
caller context. -/
structure ObservedConnect where
  host : HostDescriptor
  err : Option String
deriving DecidableEq

/-- Query event: statement text, a context carrying the parent span id (the
caller attached it via WithContext), host descriptor, outcome. -/
structure ObservedQuery where
  statement : String
  ctx : Option Nat
  host : HostDescriptor
  err : Option String
deriving DecidableEq

/-- Batch event: ordered sequence of statement texts, a context, host
descriptor, outcome. -/
structure ObservedBatch where
  statements : List String
  ctx : Option Nat
  host : HostDescriptor
  err : Option String
deriving DecidableEq

/-- The host part of every span attribute set, derived fresh per event from the
extractor output. -/
def hostAttrs (h : HostDescriptor) : List (String × AttrValue) :=
  let a := extractHostAttributes h
  [(cassHostKey, AttrValue.str a.address),
   (cassPortKey, AttrValue.int a.port),
   (cassVersionKey, AttrValue.str a.version),
   (cassHostStateKey, AttrValue.str a.state.label)]

/-- Modelled from the spec: §4.2 attribute policy for query events — host
attributes merged with the statement text under a fixed key. -/
def queryAttrs (ev : ObservedQuery) : List (String × AttrValue) :=
  hostAttrs ev.host ++ [(cassStatementKey, AttrValue.str ev.statement)]

/-- Modelled from the spec: §4.2 attribute policy for batch events — host
attributes merged with the ordered statement-text list under a fixed key. -/
def batchAttrs (ev : ObservedBatch) : List (String × AttrValue) :=
  hostAttrs ev.host ++ [(cassBatchStatementsKey, AttrValue.strList ev.statements)]

/-- Modelled from the spec: §4.2 attribute policy for connect events — host
attributes only, no additional keys. -/
def connectAttrs (ev : ObservedConnect) : List (String × AttrValue) :=
  hostAttrs ev.host

/-! ## Configuration and the functional-option builder -/

/-- A tracer handle: either the process-wide default tracer keyed by an
instrumentation name, or a caller-supplied tracer. -/
inductive Tracer
  | globalDefault (instName : String)
  | custom (id : Nat)
deriving DecidableEq

/-- A meter handle: the no-op meter or a caller-supplied meter. -/
inductive Meter
  | noop
  | custom (id : Nat)
deriving DecidableEq

/-- Modelled from the spec: §3 Configuration — tracer handle, meter handle, one
ordered list of extra observers per event kind, and three independent boolean
toggles.  Extra observers are identified by opaque ids. -/
structure Config where
  tracer : Tracer
  meter : Meter
  instrumentQuery : Bool
  instrumentBatch : Bool
  instrumentConnect : Bool
  queryObservers : List Nat
  batchObservers : List Nat
  connectObservers : List Nat
deriving DecidableEq

/-- The fixed instrumentation name keying the process-wide default tracer
(per the README: `global.Tracer("github.com/gocql/gocql")`). -/
def instrumentationName : String := "github.com/gocql/gocql"

/-- Modelled from the spec: §4.4 defaults — tracer = process-wide default
tracer keyed by the fixed instrumentation name, meter = no-op, all three
categories enabled, no extra observers. -/
def defaultConfig : Config :=
  { tracer := Tracer.globalDefault instrumentationName
    meter := Meter.noop
    instrumentQuery := true
    instrumentBatch := true
    instrumentConnect := true
    queryObservers := []
    batchObservers := []
    connectObservers := [] }

/-- The functional options accepted by the session factory, per the README
table and spec §6. -/
inductive TracedSessionOption
  | withTracer (t : Tracer)
  | withMeter (m : Meter)
  | withQueryObserver (o : Nat)
  | withBatchObserver (o : Nat)
  | withConnectObserver (o : Nat)
  | withQueryInstrumentation (b : Bool)
  | withBatchInstrumentation (b : Bool)
  | withConnectInstrumentation (b : Bool)
deriving DecidableEq

/-- Modelled from the spec: §4.4 — each option is a named effect on the draft
configuration; scalar fields are overwritten, observer lists are appended to. -/
def applyOption (c : Config) : TracedSessionOption → Config
  | TracedSessionOption.withTracer t => { c with tracer := t }
  | TracedSessionOption.withMeter m => { c with meter := m }
  | TracedSessionOption.withQueryObserver o =>
      { c with queryObservers := c.queryObservers ++ [o] }
  | TracedSessionOption.withBatchObserver o =>
      { c with batchObservers := c.batchObservers ++ [o] }
  | TracedSessionOption.withConnectObserver o =>
      { c with connectObservers := c.connectObservers ++ [o] }
  | TracedSessionOption.withQueryInstrumentation b => { c with instrumentQuery := b }
  | TracedSessionOption.withBatchInstrumentation b => { c with instrumentBatch := b }
  | TracedSessionOption.withConnectInstrumentation b => { c with instrumentConnect := b }

/-- Modelled from the spec: §4.4 Configuration Builder — starts from defaults
and applies an ordered sequence of options; pure, no I/O. -/
def newConfig (opts : List TracedSessionOption) : Config :=
  opts.foldl applyOption defaultConfig

/-! ## Spans, telemetry actions and the observer adapters -/

/-- The data a span is created with: a name from the fixed enumeration, a
parent determined by the incoming context (none for a root span), an attribute
set, and whether the event's error outcome was recorded on it. -/
structure SpanData where
  name : String
  parent : Option Nat
  attrs : List (String × AttrValue)
  errRecorded : Bool
deriving DecidableEq

/-- Telemetry-backend failure modes an adapter invocation may run into:
span creation failing, attribute population partially failing, metric
recording failing.  All are internal and must be swallowed. -/
structure TelemetryEnv where
  spanFails : Bool
  attrFails : Bool
  metricFails : Bool
deriving DecidableEq

/-- One telemetry-visible step taken by an adapter during a callback
invocation, in order. -/
inductive Action
  | startSpan (s : SpanData)
  | endSpan
  | recordMetric (m : String)
  | notifyQuery (o : Nat) (ev : ObservedQuery)
  | notifyBatch (o : Nat) (ev : ObservedBatch)
  | notifyConnect (o : Nat) (ev : ObservedConnect)
deriving DecidableEq

/-- Attempt to create a span; a telemetry-backend failure is reported as an
error to be swallowed by the adapter. -/
def attemptSpan (env : TelemetryEnv) (s : SpanData) : Except String SpanData :=
  if env.spanFails then Except.error "span creation failed" else Except.ok s

/-- Attempt to record the configured metrics; a failure is reported as an
error to be swallowed by the adapter. -/
def attemptMetrics (env : TelemetryEnv) (ms : List String) :
    Except String (List String) :=
  if env.metricFails then Except.error "metric recording failed" else Except.ok ms

/-- Build span data, with attribute population possibly partially failing
(yielding an empty attribute set but still a usable span). -/
def mkSpanData (env : TelemetryEnv) (name : String) (parent : Option Nat)
    (attrs : List (String × AttrValue)) (errRecorded : Bool) : SpanData :=
  { name := name
    parent := parent
    attrs := if env.attrFails then [] else attrs
    errRecorded := errRecorded }

/-- Modelled from the spec: §4.3 steps 3–5 — start the span, record metrics,
end the span.  Internal telemetry failures are swallowed: a failed span
creation still leaves metric recording in place (the two channels are
independent), and a started span is always ended. -/
def telemetryActions (env : TelemetryEnv) (s : SpanData) (ms : List String) :
    List Action :=
  let metricActs : List Action :=
    match attemptMetrics env ms with
    | Except.error _ => []
    | Except.ok ms2 => ms2.map Action.recordMetric
  match attemptSpan env s with
  | Except.error _ => metricActs
  | Except.ok s2 => Action.startSpan s2 :: metricActs ++ [Action.endSpan]

/-- Metric name recorded once per query event. -/
def queryMetricName : String := "query-count"

/-- Metric name recorded once per batch event. -/
def batchMetricName : String := "batch-count"

/-- Metric name recorded once per connect event. -/
def connectMetricName : String := "connection-count"

/-- Modelled from the spec: §4.3 Query Observer Adapter — if query
instrumentation is disabled, skip span/metric work but still invoke extra
observers; otherwise start a span named per §4.2 under the context attached to
the query, populate attributes, record the error outcome, record metrics, end
the span, then invoke every registered extra query observer in registration
order with the original event. -/
def observeQuery (cfg : Config) (env : TelemetryEnv) (ev : ObservedQuery) :
    List Action :=
  (if cfg.instrumentQuery then
    telemetryActions env
      (mkSpanData env cassQueryName ev.ctx (queryAttrs ev) ev.err.isSome)
      [queryMetricName]
  else []) ++
  cfg.queryObservers.map (fun o => Action.notifyQuery o ev)

/-- Modelled from the spec: §4.3 Batch Observer Adapter — one span per batch
execution, named per §4.2, under the context attached to the batch, carrying
the ordered statement list; extra batch observers invoked last, in order. -/
def observeBatch (cfg : Config) (env : TelemetryEnv) (ev : ObservedBatch) :
    List Action :=
  (if cfg.instrumentBatch then
    telemetryActions env
      (mkSpanData env cassBatchQueryName ev.ctx (batchAttrs ev) ev.err.isSome)
      [batchMetricName]
  else []) ++
  cfg.batchObservers.map (fun o => Action.notifyBatch o ev)

/-- Modelled from the spec: §4.3 Connect Observer Adapter — connect events
carry no caller context and always start a span without explicit parent; extra
connect observers invoked last, in order. -/
def observeConnect (cfg : Config) (env : TelemetryEnv) (ev : ObservedConnect) :
    List Action :=
  (if cfg.instrumentConnect then
    telemetryActions env
      (mkSpanData env cassConnectName none (connectAttrs ev) ev.err.isSome)
      [connectMetricName]
  else []) ++
  cfg.connectObservers.map (fun o => Action.notifyConnect o ev)

/-! ## Trace measurements -/

/-- The spans started in a trace, in order. -/
def startedSpans (t : List Action) : List SpanData :=
  t.filterMap fun a =>
    match a with
    | Action.startSpan s => some s
    | _ => none

/-- Whether an action is a span end. -/
def isEnd : Action → Bool
  | Action.endSpan => true
  | _ => false

/-- Whether an action is a metric recording. -/
def isMetric : Action → Bool
  | Action.recordMetric _ => true
  | _ => false

/-- The query-observer notifications in a trace: which observer was invoked,
with which event, in order. -/
def queryNotifications (t : List Action) : List (Nat × ObservedQuery) :=
  t.filterMap fun a =>
    match a with
    | Action.notifyQuery o ev => some (o, ev)
    | _ => none

/-- The batch-observer notifications in a trace, in order. -/
def batchNotifications (t : List Action) : List (Nat × ObservedBatch) :=
  t.filterMap fun a =>
    match a with
    | Action.notifyBatch o ev => some (o, ev)
    | _ => none

/-- The connect-observer notifications in a trace, in order. -/
def connectNotifications (t : List Action) : List (Nat × ObservedConnect) :=
  t.filterMap fun a =>
    match a with
    | Action.notifyConnect o ev => some (o, ev)
    | _ => none

/-- Checks that, scanning the trace with `n` spans currently open, every span
end matches a previously started open span and no span is left open at the
trace's close: no leaked span, no double end, no end before start. -/
def endsBalanced : Nat → List Action → Bool
  | 0, [] => true
  | _ + 1, [] => false
  | n, Action.startSpan _ :: rest => endsBalanced (n + 1) rest
  | n, Action.endSpan :: rest =>
      match n with
      | 0 => false
      | m + 1 => endsBalanced m rest
  | n, Action.recordMetric _ :: rest => endsBalanced n rest
  | n, Action.notifyQuery _ _ :: rest => endsBalanced n rest
  | n, Action.notifyBatch _ _ :: rest => endsBalanced n rest
  | n, Action.notifyConnect _ _ :: rest => endsBalanced n rest

/-! ## Operation execution seen by the caller -/

/-- Modelled from the spec: §7 — a query execution delivers the driver-reported
outcome to the adapter as the observed event and returns that outcome, and only
that outcome, to the caller; the adapter contributes telemetry actions only. -/
def execQueryTraced (cfg : Config) (env : TelemetryEnv) (stmt : String)
    (ctx : Option Nat) (host : HostDescriptor) (driverErr : Option String) :
    Option String × List Action :=
  (driverErr, observeQuery cfg env
    { statement := stmt, ctx := ctx, host := host, err := driverErr })

/-- Modelled from the spec: §7 — batch execution outcome propagation, as for
queries. -/
def execBatchTraced (cfg : Config) (env : TelemetryEnv) (stmts : List String)
    (ctx : Option Nat) (host : HostDescriptor) (driverErr : Option String) :
    Option String × List Action :=
  (driverErr, observeBatch cfg env
    { statements := stmts, ctx := ctx, host := host, err := driverErr })

/-- Modelled from the spec: §7 — connection-attempt outcome propagation, as for
queries. -/
def execConnectTraced (cfg : Config) (env : TelemetryEnv)
    (host : HostDescriptor) (driverErr : Option String) :
    Option String × List Action :=
  (driverErr, observeConnect cfg env { host := host, err := driverErr })

/-! ## Session factory -/

/-- A connection-configuration observer slot: either a caller-installed native
observer, or an observer adapter installed by the session factory holding the
(possibly augmented) configuration. -/
inductive SlotVal
  | native (id : Nat)
  | adapter (kind : EventKind) (cfg : Config)
deriving DecidableEq

/-- The driver connection configuration: hosts, port, and the three
independent observer slots. -/
structure ClusterConfig where
  hosts : List String
  port : Int
  queryObserver : Option SlotVal
  batchObserver : Option SlotVal
  connectObserver : Option SlotVal
deriving DecidableEq

/-- The native observer id held by a slot, if any, as a list it can be
composed from. -/
def nativeIds : Option SlotVal → List Nat
  | some (SlotVal.native i) => [i]
  | _ => []

/-- Modelled from the spec: §4.5 Session Factory installation — installs one
observer adapter per enabled category onto the connection configuration's
observer slots, preserving any pre-existing observer there by composing it as
an extra observer of its kind rather than overwriting it. -/
def instrumentCluster (c : ClusterConfig) (cfg : Config) : ClusterConfig :=
  { c with
    queryObserver :=
      if cfg.instrumentQuery then
        some (SlotVal.adapter EventKind.query
          { cfg with queryObservers := cfg.queryObservers ++ nativeIds c.queryObserver })
      else c.queryObserver
    batchObserver :=
      if cfg.instrumentBatch then
        some (SlotVal.adapter EventKind.batch
          { cfg with batchObservers := cfg.batchObservers ++ nativeIds c.batchObserver })
      else c.batchObserver
    connectObserver :=
      if cfg.instrumentConnect then
        some (SlotVal.adapter EventKind.connect
          { cfg with connectObservers := cfg.connectObservers ++ nativeIds c.connectObserver })
      else c.connectObserver }

/-- Modelled from the spec: §4.5 — builds the configuration from the options,
installs the adapters, then delegates session creation to the driver and
returns the resulting session or the creation error unmodified.  The driver's
session creation is an external collaborator, passed in as a function. -/
def newSessionWithTracing (c : ClusterConfig) (opts : List TracedSessionOption)
    (createSession : ClusterConfig → Except String Nat) : Except String Nat :=
  createSession (instrumentCluster c (newConfig opts))

/-! ## Concrete instances used in witness checks -/

/-- A live host descriptor as in the integration tests (127.0.0.1, default
Cassandra port, known version, up). -/
def wHost : HostDescriptor :=
  { address := some "127.0.0.1"
    port := some 9042
    version := some "3.11"
    live := some true }

/-- A fully functioning telemetry environment. -/
def wEnvOk : TelemetryEnv :=
  { spanFails := false, attrFails := false, metricFails := false }

/-- A query event mirroring the TestQuery scenario: one insert statement under
a parent span. -/
def wQueryEv : ObservedQuery :=
  { statement := "insert into test_table (id, title) values (?, ?)"
    ctx := some 7
    host := wHost
    err := none }

/-- A batch event mirroring the TestBatch scenario: ten insert statements
under a parent span. -/
def wBatchEv : ObservedBatch :=
  { statements := List.replicate 10 "insert into test_table (id, title) values (?, ?)"
    ctx := some 7
    host := wHost
    err := none }

/-- A connect event for the test host. -/
def wConnectEv : ObservedConnect :=
  { host := wHost, err := none }

/-- A configuration with every instrumentation category disabled and extra
observers of each kind registered. -/
def wCfgOff : Config :=
  { defaultConfig with
    instrumentQuery := false
    instrumentBatch := false
    instrumentConnect := false
    queryObservers := [1, 2]
    batchObservers := [3]
    connectObservers := [4] }

/-- A configuration mirroring the TestBatch scenario: only connect
instrumentation disabled, the other categories left enabled, with an extra
connect observer registered. -/
def wCfgConnOff : Config :=
  { defaultConfig with
    instrumentConnect := false
    connectObservers := [4] }

/-- A driver cluster configuration with a caller-installed native observer on
each slot, as in the composability scenario. -/
def wCluster : ClusterConfig :=
  { hosts := ["127.0.0.1"]
    port := 9042
    queryObserver := some (SlotVal.native 11)
    batchObserver := some (SlotVal.native 12)
    connectObserver := some (SlotVal.native 13) }

/-- A driver session-creation function that fails. -/
def wCreateFail : ClusterConfig → Except String Nat :=
  fun _ => Except.error "driver creation failed"

/-- A driver session-creation function that succeeds with session 42. -/
def wCreateOk : ClusterConfig → Except String Nat :=
  fun _ => Except.ok 42

/-! ## Helper lemmas on trace measurements -/

lemma startedSpans_append (t u : List Action) :
    startedSpans (t ++ u) = startedSpans t ++ startedSpans u := by
  simp [startedSpans, List.filterMap_append]

lemma startedSpans_metricMap (ms : List String) :
    startedSpans (ms.map Action.recordMetric) = [] := by
  induction ms with
  | nil => rfl
  | cons m ms ih => simp [startedSpans, List.filterMap_cons] at ih ⊢

lemma startedSpans_notifyQueryMap (l : List Nat) (ev : ObservedQuery) :
    startedSpans (l.map fun o => Action.notifyQuery o ev) = [] := by
  induction l with
  | nil => rfl
  | cons a l ih => simp [startedSpans, List.filterMap_cons] at ih ⊢

lemma startedSpans_notifyBatchMap (l : List Nat) (ev : ObservedBatch) :
    startedSpans (l.map fun o => Action.notifyBatch o ev) = [] := by
  induction l with
  | nil => rfl
  | cons a l ih => simp [startedSpans, List.filterMap_cons] at ih ⊢

lemma startedSpans_notifyConnectMap (l : List Nat) (ev : ObservedConnect) :
    startedSpans (l.map fun o => Action.notifyConnect o ev) = [] := by
  induction l with
  | nil => rfl
  | cons a l ih => simp [startedSpans, List.filterMap_cons] at ih ⊢

lemma queryNotifications_append (t u : List Action) :
    queryNotifications (t ++ u) = queryNotifications t ++ queryNotifications u := by
  simp [queryNotifications, List.filterMap_append]

lemma batchNotifications_append (t u : List Action) :
    batchNotifications (t ++ u) = batchNotifications t ++ batchNotifications u := by
  simp [batchNotifications, List.filterMap_append]

lemma connectNotifications_append (t u : List Action) :
    connectNotifications (t ++ u) = connectNotifications t ++ connectNotifications u := by
  simp [connectNotifications, List.filterMap_append]

lemma queryNotifications_notifyMap (l : List Nat) (ev : ObservedQuery) :
    queryNotifications (l.map fun o => Action.notifyQuery o ev) =
      l.map fun o => (o, ev) := by
  induction l with
  | nil => rfl
  | cons a l ih => simp [queryNotifications, List.filterMap_cons] at ih ⊢; exact ih

lemma batchNotifications_notifyMap (l : List Nat) (ev : ObservedBatch) :
    batchNotifications (l.map fun o => Action.notifyBatch o ev) =
      l.map fun o => (o, ev) := by
  induction l with
  | nil => rfl
  | cons a l ih => simp [batchNotifications, List.filterMap_cons] at ih ⊢; exact ih

lemma connectNotifications_notifyMap (l : List Nat) (ev : ObservedConnect) :
    connectNotifications (l.map fun o => Action.notifyConnect o ev) =
      l.map fun o => (o, ev) := by
  induction l with
  | nil => rfl
  | cons a l ih => simp [connectNotifications, List.filterMap_cons] at ih ⊢; exact ih

lemma queryNotifications_telemetryActions (env : TelemetryEnv) (s : SpanData)
    (ms : List String) :
    queryNotifications (telemetryActions env s ms) = [] := by
  rcases env with ⟨sf, af, mf⟩
  cases sf <;> cases mf <;>
    simp [telemetryActions, attemptSpan, attemptMetrics, queryNotifications,
      List.filterMap_cons, List.filterMap_append]

lemma batchNotifications_telemetryActions (env : TelemetryEnv) (s : SpanData)
    (ms : List String) :
    batchNotifications (telemetryActions env s ms) = [] := by
  rcases env with ⟨sf, af, mf⟩
  cases sf <;> cases mf <;>
    simp [telemetryActions, attemptSpan, attemptMetrics, batchNotifications,
      List.filterMap_cons, List.filterMap_append]

lemma connectNotifications_telemetryActions (env : TelemetryEnv) (s : SpanData)
    (ms : List String) :
    connectNotifications (telemetryActions env s ms) = [] := by
  rcases env with ⟨sf, af, mf⟩
  cases sf <;> cases mf <;>
    simp [telemetryActions, attemptSpan, attemptMetrics, connectNotifications,
      List.filterMap_cons, List.filterMap_append]

lemma endsBalanced_nil (n : Nat) : endsBalanced n [] = decide (n = 0) := by
  cases n <;> simp [endsBalanced]

lemma endsBalanced_notifyQueryMap (n : Nat) (l : List Nat) (ev : ObservedQuery)
    (r : List Action) :
    endsBalanced n ((l.map fun o => Action.notifyQuery o ev) ++ r) =
      endsBalanced n r := by
  induction l generalizing n with
  | nil => rfl
  | cons a l ih => simp [endsBalanced, ih]

lemma endsBalanced_notifyBatchMap (n : Nat) (l : List Nat) (ev : ObservedBatch)
    (r : List Action) :
    endsBalanced n ((l.map fun o => Action.notifyBatch o ev) ++ r) =
      endsBalanced n r := by
  induction l generalizing n with
  | nil => rfl
  | cons a l ih => simp [endsBalanced, ih]

lemma endsBalanced_notifyConnectMap (n : Nat) (l : List Nat)
    (ev : ObservedConnect) (r : List Action) :
    endsBalanced n ((l.map fun o => Action.notifyConnect o ev) ++ r) =
      endsBalanced n r := by
  induction l generalizing n with
  | nil => rfl
  | cons a l ih => simp [endsBalanced, ih]

lemma endsBalanced_metricMap (n : Nat) (ms : List String) (r : List Action) :
    endsBalanced n ((ms.map Action.recordMetric) ++ r) = endsBalanced n r := by
  induction ms generalizing n with
  | nil => rfl
  | cons m ms ih => simp [endsBalanced, ih]

lemma endsBalanced_telemetryActions (env : TelemetryEnv) (s : SpanData)
    (ms : List String) (r : List Action) :
    endsBalanced 0 (telemetryActions env s ms ++ r) = endsBalanced 0 r := by
  rcases env with ⟨sf, af, mf⟩
  cases sf <;> cases mf <;>
    simp [telemetryActions, attemptSpan, attemptMetrics, endsBalanced,
      endsBalanced_metricMap]

lemma startedSpans_telemetryActions (env : TelemetryEnv) (s : SpanData)
    (ms : List String) :
    startedSpans (telemetryActions env s ms) =
      if env.spanFails then [] else [s] := by
  rcases env with ⟨sf, af, mf⟩
  cases sf <;> cases mf <;>
    simp [telemetryActions, attemptSpan, attemptMetrics, startedSpans,
      List.filterMap_cons, List.filterMap_append,
      show ∀ ms : List String, List.filterMap
        (fun a => match a with | Action.startSpan s => some s | _ => none)
        (ms.map Action.recordMetric) = [] from
          fun ms => startedSpans_metricMap ms]

lemma endsBalanced_notifyQueryMapNil (n : Nat) (l : List Nat)
    (ev : ObservedQuery) :
    endsBalanced n (l.map fun o => Action.notifyQuery o ev) = decide (n = 0) := by
  have h := endsBalanced_notifyQueryMap n l ev []
  simpa [endsBalanced_nil] using h

lemma endsBalanced_notifyBatchMapNil (n : Nat) (l : List Nat)
    (ev : ObservedBatch) :
    endsBalanced n (l.map fun o => Action.notifyBatch o ev) = decide (n = 0) := by
  have h := endsBalanced_notifyBatchMap n l ev []
  simpa [endsBalanced_nil] using h

lemma endsBalanced_notifyConnectMapNil (n : Nat) (l : List Nat)
    (ev : ObservedConnect) :
    endsBalanced n (l.map fun o => Action.notifyConnect o ev) = decide (n = 0) := by
  have h := endsBalanced_notifyConnectMap n l ev []
  simpa [endsBalanced_nil] using h

/-- The spans started by one query-adapter invocation, in closed form. -/
lemma startedSpans_observeQuery (cfg : Config) (env : TelemetryEnv)
    (ev : ObservedQuery) :
    startedSpans (observeQuery cfg env ev) =
      if cfg.instrumentQuery && !env.spanFails then
        [mkSpanData env cassQueryName ev.ctx (queryAttrs ev) ev.err.isSome]
      else [] := by
  cases hi : cfg.instrumentQuery <;> cases hs : env.spanFails <;>
    simp [observeQuery, hi, hs, startedSpans_append,
      startedSpans_telemetryActions, startedSpans_notifyQueryMap]

/-- The spans started by one batch-adapter invocation, in closed form. -/
lemma startedSpans_observeBatch (cfg : Config) (env : TelemetryEnv)
    (ev : ObservedBatch) :
    startedSpans (observeBatch cfg env ev) =
      if cfg.instrumentBatch && !env.spanFails then
        [mkSpanData env cassBatchQueryName ev.ctx (batchAttrs ev) ev.err.isSome]
      else [] := by
  cases hi : cfg.instrumentBatch <;> cases hs : env.spanFails <;>
    simp [observeBatch, hi, hs, startedSpans_append,
      startedSpans_telemetryActions, startedSpans_notifyBatchMap]

/-- The spans started by one connect-adapter invocation, in closed form. -/
lemma startedSpans_observeConnect (cfg : Config) (env : TelemetryEnv)
    (ev : ObservedConnect) :
    startedSpans (observeConnect cfg env ev) =
      if cfg.instrumentConnect && !env.spanFails then
        [mkSpanData env cassConnectName none (connectAttrs ev) ev.err.isSome]
      else [] := by
  cases hi : cfg.instrumentConnect <;> cases hs : env.spanFails <;>
    simp [observeConnect, hi, hs, startedSpans_append,
      startedSpans_telemetryActions, startedSpans_notifyConnectMap]

/-- The query-observer notifications of one query-adapter invocation: exactly
the registered list, in order, with the original event. -/
lemma queryNotifications_observeQuery (cfg : Config) (env : TelemetryEnv)
    (ev : ObservedQuery) :
    queryNotifications (observeQuery cfg env ev) =
      cfg.queryObservers.map fun o => (o, ev) := by
  cases hi : cfg.instrumentQuery <;>
    simp [observeQuery, hi, queryNotifications_append,
      queryNotifications_telemetryActions, queryNotifications_notifyMap]

/-- The batch-observer notifications of one batch-adapter invocation. -/
lemma batchNotifications_observeBatch (cfg : Config) (env : TelemetryEnv)
    (ev : ObservedBatch) :
    batchNotifications (observeBatch cfg env ev) =
      cfg.batchObservers.map fun o => (o, ev) := by
  cases hi : cfg.instrumentBatch <;>
    simp [observeBatch, hi, batchNotifications_append,
      batchNotifications_telemetryActions, batchNotifications_notifyMap]

/-- The connect-observer notifications of one connect-adapter invocation. -/
lemma connectNotifications_observeConnect (cfg : Config) (env : TelemetryEnv)
    (ev : ObservedConnect) :
    connectNotifications (observeConnect cfg env ev) =
      cfg.connectObservers.map fun o => (o, ev) := by
  cases hi : cfg.instrumentConnect <;>
    simp [observeConnect, hi, connectNotifications_append,
      connectNotifications_telemetryActions, connectNotifications_notifyMap]

lemma lookupAttr_queryAttrs_statement (ev : ObservedQuery) :
    lookupAttr cassStatementKey (queryAttrs ev) =
      some (AttrValue.str ev.statement) := by
  simp [lookupAttr, queryAttrs, hostAttrs, cassStatementKey, cassHostKey,
    cassPortKey, cassVersionKey, cassHostStateKey, List.find?]

lemma lookupAttr_batchAttrs_statements (ev : ObservedBatch) :
    lookupAttr cassBatchStatementsKey (batchAttrs ev) =
      some (AttrValue.strList ev.statements) := by
  simp [lookupAttr, batchAttrs, hostAttrs, cassBatchStatementsKey, cassHostKey,
    cassPortKey, cassVersionKey, cassHostStateKey, List.find?]

/-- The number of span ends emitted by one query-adapter invocation. -/
lemma endCount_observeQuery (cfg : Config) (env : TelemetryEnv)
    (ev : ObservedQuery) :
    ((observeQuery cfg env ev).filter isEnd).length =
      if cfg.instrumentQuery && !env.spanFails then 1 else 0 := by
  rcases env with ⟨sf, af, mf⟩
  cases hi : cfg.instrumentQuery <;> cases sf <;> cases mf <;>
    simp [observeQuery, hi, telemetryActions, attemptSpan, attemptMetrics,
      isEnd, List.filter_append, List.filter_map, Function.comp]

/-- The number of span ends emitted by one batch-adapter invocation. -/
lemma endCount_observeBatch (cfg : Config) (env : TelemetryEnv)
    (ev : ObservedBatch) :
    ((observeBatch cfg env ev).filter isEnd).length =
      if cfg.instrumentBatch && !env.spanFails then 1 else 0 := by
  rcases env with ⟨sf, af, mf⟩
  cases hi : cfg.instrumentBatch <;> cases sf <;> cases mf <;>
    simp [observeBatch, hi, telemetryActions, attemptSpan, attemptMetrics,
      isEnd, List.filter_append, List.filter_map, Function.comp]

/-! ## Claim theorems -/

/-- C3: for every observer-adapter callback invocation (connect, query or
batch), every span started during the invocation is ended exactly once within
that same invocation — even under partial attribute-population failure and any
other internal telemetry failure — with no span leaked unended and no span
ended twice, and at most one span is started per invocation. -/
theorem adapter_spans_balanced (cfg : Config) (env : TelemetryEnv)
    (evq : ObservedQuery) (evb : ObservedBatch) (evc : ObservedConnect) :
    (endsBalanced 0 (observeQuery cfg env evq) = true ∧
      (startedSpans (observeQuery cfg env evq)).length ≤ 1) ∧
    (endsBalanced 0 (observeBatch cfg env evb) = true ∧
      (startedSpans (observeBatch cfg env evb)).length ≤ 1) ∧
    (endsBalanced 0 (observeConnect cfg env evc) = true ∧
      (startedSpans (observeConnect cfg env evc)).length ≤ 1) := by
  refine ⟨⟨?_, ?_⟩, ⟨?_, ?_⟩, ⟨?_, ?_⟩⟩
  · cases hi : cfg.instrumentQuery <;>
      simp [observeQuery, hi, endsBalanced_telemetryActions,
        endsBalanced_notifyQueryMapNil]
  · rw [startedSpans_observeQuery]; split <;> simp
  · cases hi : cfg.instrumentBatch <;>
      simp [observeBatch, hi, endsBalanced_telemetryActions,
        endsBalanced_notifyBatchMapNil]
  · rw [startedSpans_observeBatch]; split <;> simp
  · cases hi : cfg.instrumentConnect <;>
      simp [observeConnect, hi, endsBalanced_telemetryActions,
        endsBalanced_notifyConnectMapNil]
  · rw [startedSpans_observeConnect]; split <;> simp

/-- C1: for every executed query with query instrumentation enabled (and
functioning telemetry), exactly one query span is produced per query execution
— started once and ended once — named the literal "query", with its statement
attribute equal to the submitted statement text and its parent equal to the
span carried by the context the caller attached via WithContext. -/
theorem query_span_per_execution (cfg : Config) (env : TelemetryEnv)
    (ev : ObservedQuery) (h1 : cfg.instrumentQuery = true)
    (h2 : env.spanFails = false) (h3 : env.attrFails = false) :
    (startedSpans (observeQuery cfg env ev)).length = 1 ∧
    ((observeQuery cfg env ev).filter isEnd).length = 1 ∧
    ∀ s ∈ startedSpans (observeQuery cfg env ev),
      s.name = cassQueryName ∧
      lookupAttr cassStatementKey s.attrs = some (AttrValue.str ev.statement) ∧
      s.parent = ev.ctx := by
  refine ⟨?_, ?_, ?_⟩
  · rw [startedSpans_observeQuery, h1, h2]; simp
  · rw [endCount_observeQuery, h1, h2]; simp
  · rw [startedSpans_observeQuery, h1, h2]
    simp [mkSpanData, h3, lookupAttr_queryAttrs_statement]

/-- C2: for every executed batch with batch instrumentation enabled (and
functioning telemetry), exactly one batch span is produced per batch execution
— never one per statement, whatever the number of statements — named the
literal "batch-query", carrying the full ordered sequence of the batch's
statement texts as a single attribute, with its parent equal to the span in
the context attached to the batch. -/
theorem batch_span_per_execution (cfg : Config) (env : TelemetryEnv)
    (ev : ObservedBatch) (h1 : cfg.instrumentBatch = true)
    (h2 : env.spanFails = false) (h3 : env.attrFails = false) :
    (startedSpans (observeBatch cfg env ev)).length = 1 ∧
    ((observeBatch cfg env ev).filter isEnd).length = 1 ∧
    ∀ s ∈ startedSpans (observeBatch cfg env ev),
      s.name = cassBatchQueryName ∧
      lookupAttr cassBatchStatementsKey s.attrs =
        some (AttrValue.strList ev.statements) ∧
      s.parent = ev.ctx := by
  refine ⟨?_, ?_, ?_⟩
  · rw [startedSpans_observeBatch, h1, h2]; simp
  · rw [endCount_observeBatch, h1, h2]; simp
  · rw [startedSpans_observeBatch, h1, h2]
    simp [mkSpanData, h3, lookupAttr_batchAttrs_statements]

/-- C4: for every event delivered to an observer adapter, the extra observers
invoked are exactly those registered at configuration-build time for that
event's kind, each exactly once, in registration order, receiving the original
event unmodified — in particular two registered observers of the same kind are
both invoked, in order, for every matching event. -/
theorem extra_observers_exact (cfg : Config) (env : TelemetryEnv)
    (evq : ObservedQuery) (evb : ObservedBatch) (evc : ObservedConnect) :
    queryNotifications (observeQuery cfg env evq) =
      cfg.queryObservers.map (fun o => (o, evq)) ∧
    batchNotifications (observeBatch cfg env evb) =
      cfg.batchObservers.map (fun o => (o, evb)) ∧
    connectNotifications (observeConnect cfg env evc) =
      cfg.connectObservers.map (fun o => (o, evc)) :=
  ⟨queryNotifications_observeQuery cfg env evq,
   batchNotifications_observeBatch cfg env evb,
   connectNotifications_observeConnect cfg env evc⟩

/-- Witness for C1: the default configuration (query instrumentation enabled)
and a functioning telemetry environment, on the test's literal insert
statement under parent span 7. -/
theorem query_span_per_execution_witness :
    defaultConfig.instrumentQuery = true ∧ wEnvOk.spanFails = false ∧
    wEnvOk.attrFails = false ∧
    ((startedSpans (observeQuery defaultConfig wEnvOk wQueryEv)).length = 1 ∧
    ((observeQuery defaultConfig wEnvOk wQueryEv).filter isEnd).length = 1 ∧
    ∀ s ∈ startedSpans (observeQuery defaultConfig wEnvOk wQueryEv),
      s.name = cassQueryName ∧
      lookupAttr cassStatementKey s.attrs =
        some (AttrValue.str wQueryEv.statement) ∧
      s.parent = wQueryEv.ctx) :=
  ⟨rfl, rfl, rfl, query_span_per_execution defaultConfig wEnvOk wQueryEv rfl rfl rfl⟩

/-- Witness for C2: the default configuration on the test's ten-statement
logged batch under parent span 7 — still exactly one span. -/
theorem batch_span_per_execution_witness :
    defaultConfig.instrumentBatch = true ∧ wEnvOk.spanFails = false ∧
    wEnvOk.attrFails = false ∧
    ((startedSpans (observeBatch defaultConfig wEnvOk wBatchEv)).length = 1 ∧
    ((observeBatch defaultConfig wEnvOk wBatchEv).filter isEnd).length = 1 ∧
    ∀ s ∈ startedSpans (observeBatch defaultConfig wEnvOk wBatchEv),
      s.name = cassBatchQueryName ∧
      lookupAttr cassBatchStatementsKey s.attrs =
        some (AttrValue.strList wBatchEv.statements) ∧
      s.parent = wBatchEv.ctx) :=
  ⟨rfl, rfl, rfl, batch_span_per_execution defaultConfig wEnvOk wBatchEv rfl rfl rfl⟩

/-- C5: for every event kind whose instrumentation toggle is disabled in the
configuration, the adapter produces no span action, no span end and no metric
recording for events of that kind — its whole trace is just the extra-observer
notifications — yet every registered extra observer of that kind is still
invoked exactly once per event, in order, with the original event. -/
theorem disabled_category_keeps_observers (cfg : Config) (env : TelemetryEnv)
    (evq : ObservedQuery) (evb : ObservedBatch) (evc : ObservedConnect) :
    (cfg.instrumentQuery = false →
      observeQuery cfg env evq =
        cfg.queryObservers.map (fun o => Action.notifyQuery o evq) ∧
      startedSpans (observeQuery cfg env evq) = [] ∧
      (observeQuery cfg env evq).filter isMetric = [] ∧
      (observeQuery cfg env evq).filter isEnd = [] ∧
      queryNotifications (observeQuery cfg env evq) =
        cfg.queryObservers.map (fun o => (o, evq))) ∧
    (cfg.instrumentBatch = false →
      observeBatch cfg env evb =
        cfg.batchObservers.map (fun o => Action.notifyBatch o evb) ∧
      startedSpans (observeBatch cfg env evb) = [] ∧
      (observeBatch cfg env evb).filter isMetric = [] ∧
      (observeBatch cfg env evb).filter isEnd = [] ∧
      batchNotifications (observeBatch cfg env evb) =
        cfg.batchObservers.map (fun o => (o, evb))) ∧
    (cfg.instrumentConnect = false →
      observeConnect cfg env evc =
        cfg.connectObservers.map (fun o => Action.notifyConnect o evc) ∧
      startedSpans (observeConnect cfg env evc) = [] ∧
      (observeConnect cfg env evc).filter isMetric = [] ∧
      (observeConnect cfg env evc).filter isEnd = [] ∧
      connectNotifications (observeConnect cfg env evc) =
        cfg.connectObservers.map (fun o => (o, evc))) := by
  refine ⟨fun hq => ⟨?_, ?_, ?_, ?_, ?_⟩, fun hb => ⟨?_, ?_, ?_, ?_, ?_⟩,
    fun hc => ⟨?_, ?_, ?_, ?_, ?_⟩⟩ <;>
    simp [observeQuery, observeBatch, observeConnect, *,
      startedSpans_notifyQueryMap, startedSpans_notifyBatchMap,
      startedSpans_notifyConnectMap, queryNotifications_notifyMap,
      batchNotifications_notifyMap, connectNotifications_notifyMap,
      isMetric, isEnd, List.filter_map, Function.comp]

/-- Witness for C5: first the TestBatch mixed configuration — only connect
instrumentation disabled, connect observer 4 registered — where the connect
trace is exactly the notifications; then the all-disabled configuration with
observers 1,2 / 3 / 4 registered, exercising the query conjunct. -/
theorem disabled_category_keeps_observers_witness :
    wCfgConnOff.instrumentConnect = false ∧
    wCfgConnOff.instrumentBatch = true ∧
    (observeConnect wCfgConnOff wEnvOk wConnectEv =
        wCfgConnOff.connectObservers.map
          (fun o => Action.notifyConnect o wConnectEv) ∧
      startedSpans (observeConnect wCfgConnOff wEnvOk wConnectEv) = [] ∧
      (observeConnect wCfgConnOff wEnvOk wConnectEv).filter isMetric = [] ∧
      connectNotifications (observeConnect wCfgConnOff wEnvOk wConnectEv) =
        wCfgConnOff.connectObservers.map (fun o => (o, wConnectEv))) ∧
    wCfgOff.instrumentQuery = false ∧
    (observeQuery wCfgOff wEnvOk wQueryEv =
        wCfgOff.queryObservers.map (fun o => Action.notifyQuery o wQueryEv) ∧
      queryNotifications (observeQuery wCfgOff wEnvOk wQueryEv) =
        wCfgOff.queryObservers.map (fun o => (o, wQueryEv))) :=
  ⟨rfl, rfl, by
    have h := (disabled_category_keeps_observers wCfgConnOff wEnvOk wQueryEv
      wBatchEv wConnectEv).2.2 rfl
    exact ⟨h.1, h.2.1, h.2.2.1, h.2.2.2.2⟩, rfl, by
    have h := (disabled_category_keeps_observers wCfgOff wEnvOk wQueryEv
      wBatchEv wConnectEv).1 rfl
    exact ⟨h.1, h.2.2.2.2⟩⟩

/-- C6: the success/failure outcome and exact error value a database operation
(query, batch or connect) returns to the caller equal the driver-reported
outcome and are identical across any two configurations (tracing enabled or
disabled) and any two telemetry environments (including internal telemetry
failures): the adapter contributes telemetry actions only and never an error. -/
theorem operation_outcome_unchanged (cfg cfg2 : Config)
    (env env2 : TelemetryEnv) (stmt : String) (stmts : List String)
    (ctx : Option Nat) (host : HostDescriptor) (driverErr : Option String) :
    (execQueryTraced cfg env stmt ctx host driverErr).fst = driverErr ∧
    (execQueryTraced cfg env stmt ctx host driverErr).fst =
      (execQueryTraced cfg2 env2 stmt ctx host driverErr).fst ∧
    (execBatchTraced cfg env stmts ctx host driverErr).fst = driverErr ∧
    (execBatchTraced cfg env stmts ctx host driverErr).fst =
      (execBatchTraced cfg2 env2 stmts ctx host driverErr).fst ∧
    (execConnectTraced cfg env host driverErr).fst = driverErr ∧
    (execConnectTraced cfg env host driverErr).fst =
      (execConnectTraced cfg2 env2 host driverErr).fst :=
  ⟨rfl, rfl, rfl, rfl, rfl, rfl⟩

/-- C7: the session factory installs one observer adapter per enabled category
onto the connection configuration's observer slots, composing any pre-existing
native observer into the adapter's extra-observer list of that kind rather
than overwriting it, leaves the slot of a disabled category untouched, and
returns exactly what the driver's session creation returns — the session, or
the creation error unmodified. -/
theorem session_factory_install (c : ClusterConfig)
    (opts : List TracedSessionOption)
    (createSession : ClusterConfig → Except String Nat) :
    newSessionWithTracing c opts createSession =
      createSession (instrumentCluster c (newConfig opts)) ∧
    ((newConfig opts).instrumentQuery = true →
      (instrumentCluster c (newConfig opts)).queryObserver =
        some (SlotVal.adapter EventKind.query
          { newConfig opts with queryObservers :=
              (newConfig opts).queryObservers ++ nativeIds c.queryObserver })) ∧
    ((newConfig opts).instrumentBatch = true →
      (instrumentCluster c (newConfig opts)).batchObserver =
        some (SlotVal.adapter EventKind.batch
          { newConfig opts with batchObservers :=
              (newConfig opts).batchObservers ++ nativeIds c.batchObserver })) ∧
    ((newConfig opts).instrumentConnect = true →
      (instrumentCluster c (newConfig opts)).connectObserver =
        some (SlotVal.adapter EventKind.connect
          { newConfig opts with connectObservers :=
              (newConfig opts).connectObservers ++ nativeIds c.connectObserver })) ∧
    ((newConfig opts).instrumentQuery = false →
      (instrumentCluster c (newConfig opts)).queryObserver = c.queryObserver) ∧
    ((newConfig opts).instrumentBatch = false →
      (instrumentCluster c (newConfig opts)).batchObserver = c.batchObserver) ∧
    ((newConfig opts).instrumentConnect = false →
      (instrumentCluster c (newConfig opts)).connectObserver = c.connectObserver) ∧
    (∀ i, c.queryObserver = some (SlotVal.native i) →
      (newConfig opts).instrumentQuery = true →
      ∃ cfg2, (instrumentCluster c (newConfig opts)).queryObserver =
        some (SlotVal.adapter EventKind.query cfg2) ∧ i ∈ cfg2.queryObservers) ∧
    (∀ i, c.batchObserver = some (SlotVal.native i) →
      (newConfig opts).instrumentBatch = true →
      ∃ cfg2, (instrumentCluster c (newConfig opts)).batchObserver =
        some (SlotVal.adapter EventKind.batch cfg2) ∧ i ∈ cfg2.batchObservers) ∧
    (∀ i, c.connectObserver = some (SlotVal.native i) →
      (newConfig opts).instrumentConnect = true →
      ∃ cfg2, (instrumentCluster c (newConfig opts)).connectObserver =
        some (SlotVal.adapter EventKind.connect cfg2) ∧
          i ∈ cfg2.connectObservers) ∧
    (∀ e, createSession (instrumentCluster c (newConfig opts)) =
        Except.error e →
      newSessionWithTracing c opts createSession = Except.error e) ∧
    (∀ n, createSession (instrumentCluster c (newConfig opts)) = Except.ok n →
      newSessionWithTracing c opts createSession = Except.ok n) := by
  refine ⟨rfl, ?_, ?_, ?_, ?_, ?_, ?_, ?_, ?_, ?_, ?_, ?_⟩
  · intro hq; simp [instrumentCluster, hq]
  · intro hb; simp [instrumentCluster, hb]
  · intro hc; simp [instrumentCluster, hc]
  · intro hq; simp [instrumentCluster, hq]
  · intro hb; simp [instrumentCluster, hb]
  · intro hc; simp [instrumentCluster, hc]
  · intro i hi hq
    refine ⟨{ newConfig opts with queryObservers :=
      (newConfig opts).queryObservers ++ nativeIds c.queryObserver },
      by simp [instrumentCluster, hq], by simp [nativeIds, hi]⟩
  · intro i hi hb
    refine ⟨{ newConfig opts with batchObservers :=
      (newConfig opts).batchObservers ++ nativeIds c.batchObserver },
      by simp [instrumentCluster, hb], by simp [nativeIds, hi]⟩
  · intro i hi hc
    refine ⟨{ newConfig opts with connectObservers :=
      (newConfig opts).connectObservers ++ nativeIds c.connectObserver },
      by simp [instrumentCluster, hc], by simp [nativeIds, hi]⟩
  · intro e he; simpa [newSessionWithTracing] using he
  · intro n hn; simpa [newSessionWithTracing] using hn

/-- Witness for C7: the default options on a cluster carrying native observers
11/12/13, against a failing and a succeeding driver creation function. -/
theorem session_factory_install_witness :
    (newConfig []).instrumentQuery = true ∧
    wCluster.queryObserver = some (SlotVal.native 11) ∧
    wCreateFail (instrumentCluster wCluster (newConfig [])) =
      Except.error "driver creation failed" ∧
    wCreateOk (instrumentCluster wCluster (newConfig [])) = Except.ok 42 ∧
    (instrumentCluster wCluster (newConfig [])).queryObserver =
      some (SlotVal.adapter EventKind.query
        { newConfig [] with queryObservers :=
            (newConfig []).queryObservers ++ nativeIds wCluster.queryObserver }) ∧
    (∃ cfg2, (instrumentCluster wCluster (newConfig [])).queryObserver =
      some (SlotVal.adapter EventKind.query cfg2) ∧ 11 ∈ cfg2.queryObservers) ∧
    newSessionWithTracing wCluster [] wCreateFail =
      Except.error "driver creation failed" ∧
    newSessionWithTracing wCluster [] wCreateOk = Except.ok 42 := by
  have hf := session_factory_install wCluster [] wCreateFail
  have ho := session_factory_install wCluster [] wCreateOk
  refine ⟨rfl, rfl, rfl, rfl, hf.2.1 rfl, ?_, ?_, ?_⟩
  · exact (hf.2.2.2.2.2.2.2).1 11 rfl rfl
  · exact (hf.2.2.2.2.2.2.2.2.2.2).1 "driver creation failed" rfl
  · exact (ho.2.2.2.2.2.2.2.2.2.2).2 42 rfl

/-- C8: every connect span is started without an explicit parent — a root
span — for every configuration, telemetry environment and connect event, so a
connect span is never nested under any in-flight query's span. -/
theorem connect_spans_rootless (cfg : Config) (env : TelemetryEnv)
    (ev : ObservedConnect) :
    ((startedSpans (observeConnect cfg env ev)).all
      fun s => s.parent.isNone) = true := by
  rw [startedSpans_observeConnect]; split <;> simp [mkSpanData]

/-- C9: the configuration builder is a fold over its option sequence: the
empty sequence yields the defaults (process-wide default tracer keyed by the
fixed instrumentation name, no-op meter, all three categories enabled, no
extra observers); appending an option for a scalar field overrides whatever
the earlier options set, and appending an observer option appends that
observer to its kind's list. -/
theorem config_builder_fold (opts : List TracedSessionOption) (t : Tracer)
    (m : Meter) (b : Bool) (o : Nat) :
    newConfig [] = defaultConfig ∧
    defaultConfig.tracer = Tracer.globalDefault instrumentationName ∧
    defaultConfig.meter = Meter.noop ∧
    defaultConfig.instrumentQuery = true ∧
    defaultConfig.instrumentBatch = true ∧
    defaultConfig.instrumentConnect = true ∧
    defaultConfig.queryObservers = [] ∧
    defaultConfig.batchObservers = [] ∧
    defaultConfig.connectObservers = [] ∧
    (newConfig (opts ++ [TracedSessionOption.withTracer t])).tracer = t ∧
    (newConfig (opts ++ [TracedSessionOption.withMeter m])).meter = m ∧
    (newConfig (opts ++
      [TracedSessionOption.withQueryInstrumentation b])).instrumentQuery = b ∧
    (newConfig (opts ++
      [TracedSessionOption.withBatchInstrumentation b])).instrumentBatch = b ∧
    (newConfig (opts ++
      [TracedSessionOption.withConnectInstrumentation b])).instrumentConnect = b ∧
    (newConfig (opts ++
      [TracedSessionOption.withQueryObserver o])).queryObservers =
      (newConfig opts).queryObservers ++ [o] ∧
    (newConfig (opts ++
      [TracedSessionOption.withBatchObserver o])).batchObservers =
      (newConfig opts).batchObservers ++ [o] ∧
    (newConfig (opts ++
      [TracedSessionOption.withConnectObserver o])).connectObservers =
      (newConfig opts).connectObservers ++ [o] := by
  refine ⟨rfl, rfl, rfl, rfl, rfl, rfl, rfl, rfl, rfl,
    ?_, ?_, ?_, ?_, ?_, ?_, ?_, ?_⟩ <;>
    simp [newConfig, List.foldl_append, applyOption]

lemma hostState_label_cases (st : HostState) :
    st.label = "UP" ∨ st.label = "DOWN" ∨ st.label = "UNKNOWN" := by
  cases st <;> simp [HostState.label]

/-- C10: span names and attribute keys are fixed literals independent of the
event instance: every produced span is named exactly "connect", "query" or
"batch-query"; the host attribute set always carries the database-host
(string), database-port (integer), database-version (string) and
database-host-state attributes, the host-state value being one of "UP",
"DOWN", "UNKNOWN"; every span's attributes are exactly its kind's policy
attribute set when attribute population succeeds; the statement-text key
appears only on query spans and the batch-statement-list key only on batch
spans; and for a live host the host-state value compared case-insensitively
equals "up" while the port attribute equals the configured port. -/
theorem span_names_and_attribute_policy (cfg : Config) (env : TelemetryEnv)
    (evq : ObservedQuery) (evb : ObservedBatch) (evc : ObservedConnect)
    (h : HostDescriptor) (p : Int) (ha : env.attrFails = false)
    (hl : h.live = some true) (hp : h.port = some p) :
    nameFor EventKind.connect = "connect" ∧
    nameFor EventKind.query = "query" ∧
    nameFor EventKind.batch = "batch-query" ∧
    (∀ s ∈ startedSpans (observeQuery cfg env evq),
      s.name = "query" ∧ s.attrs = queryAttrs evq) ∧
    (∀ s ∈ startedSpans (observeBatch cfg env evb),
      s.name = "batch-query" ∧ s.attrs = batchAttrs evb) ∧
    (∀ s ∈ startedSpans (observeConnect cfg env evc),
      s.name = "connect" ∧ s.attrs = connectAttrs evc) ∧
    lookupAttr cassHostKey (hostAttrs h) =
      some (AttrValue.str (extractHostAttributes h).address) ∧
    lookupAttr cassPortKey (hostAttrs h) =
      some (AttrValue.int (extractHostAttributes h).port) ∧
    lookupAttr cassVersionKey (hostAttrs h) =
      some (AttrValue.str (extractHostAttributes h).version) ∧
    lookupAttr cassHostStateKey (hostAttrs h) =
      some (AttrValue.str (extractHostAttributes h).state.label) ∧
    ((extractHostAttributes h).state.label = "UP" ∨
      (extractHostAttributes h).state.label = "DOWN" ∨
      (extractHostAttributes h).state.label = "UNKNOWN") ∧
    lookupAttr cassStatementKey (queryAttrs evq) =
      some (AttrValue.str evq.statement) ∧
    lookupAttr cassStatementKey (batchAttrs evb) = none ∧
    lookupAttr cassStatementKey (connectAttrs evc) = none ∧
    lookupAttr cassBatchStatementsKey (batchAttrs evb) =
      some (AttrValue.strList evb.statements) ∧
    lookupAttr cassBatchStatementsKey (queryAttrs evq) = none ∧
    lookupAttr cassBatchStatementsKey (connectAttrs evc) = none ∧
    strToLower (extractHostAttributes h).state.label = "up" ∧
    lookupAttr cassPortKey (hostAttrs h) = some (AttrValue.int p) := by
  refine ⟨rfl, rfl, rfl, ?_, ?_, ?_, ?_, ?_, ?_, ?_,
    hostState_label_cases _, lookupAttr_queryAttrs_statement evq, ?_, ?_,
    lookupAttr_batchAttrs_statements evb, ?_, ?_, ?_, ?_⟩
  · rw [startedSpans_observeQuery]
    split <;> simp [mkSpanData, ha, cassQueryName]
  · rw [startedSpans_observeBatch]
    split <;> simp [mkSpanData, ha, cassBatchQueryName]
  · rw [startedSpans_observeConnect]
    split <;> simp [mkSpanData, ha, cassConnectName]
  · simp [lookupAttr, hostAttrs, cassHostKey, cassPortKey, cassVersionKey,
      cassHostStateKey, List.find?]
  · simp [lookupAttr, hostAttrs, cassHostKey, cassPortKey, cassVersionKey,
      cassHostStateKey, List.find?]
  · simp [lookupAttr, hostAttrs, cassHostKey, cassPortKey, cassVersionKey,
      cassHostStateKey, List.find?]
  · simp [lookupAttr, hostAttrs, cassHostKey, cassPortKey, cassVersionKey,
      cassHostStateKey, List.find?]
  · simp [lookupAttr, batchAttrs, hostAttrs, cassStatementKey, cassHostKey,
      cassPortKey, cassVersionKey, cassHostStateKey, cassBatchStatementsKey,
      List.find?]
  · simp [lookupAttr, connectAttrs, hostAttrs, cassStatementKey, cassHostKey,
      cassPortKey, cassVersionKey, cassHostStateKey, List.find?]
  · simp [lookupAttr, queryAttrs, hostAttrs, cassBatchStatementsKey,
      cassHostKey, cassPortKey, cassVersionKey, cassHostStateKey,
      cassStatementKey, List.find?]
  · simp [lookupAttr, connectAttrs, hostAttrs, cassBatchStatementsKey,
      cassHostKey, cassPortKey, cassVersionKey, cassHostStateKey, List.find?]
  · have hst : (extractHostAttributes h).state = HostState.up := by
      simp [extractHostAttributes, hl]
    rw [hst]
    decide
  · have hpt : (extractHostAttributes h).port = p := by
      simp [extractHostAttributes, hp]
    rw [← hpt]
    simp [lookupAttr, hostAttrs, cassHostKey, cassPortKey, cassVersionKey,
      cassHostStateKey, List.find?]

/-- Witness for C10: the default configuration, functioning telemetry, the
test events and the live test host at port 9042. -/
theorem span_names_and_attribute_policy_witness :
    wEnvOk.attrFails = false ∧ wHost.live = some true ∧
    wHost.port = some 9042 ∧
    (strToLower (extractHostAttributes wHost).state.label = "up" ∧
      lookupAttr cassPortKey (hostAttrs wHost) = some (AttrValue.int 9042) ∧
      lookupAttr cassStatementKey (queryAttrs wQueryEv) =
        some (AttrValue.str wQueryEv.statement) ∧
      lookupAttr cassStatementKey (connectAttrs wConnectEv) = none) := by
  have h := span_names_and_attribute_policy defaultConfig wEnvOk wQueryEv
    wBatchEv wConnectEv wHost 9042 rfl rfl rfl
  obtain ⟨-, -, -, -, -, -, -, -, -, -, -, h12, -, h14, -, -, -, h18, h19⟩ := h
  exact ⟨rfl, rfl, rfl, h18, h19, h12, h14⟩

end Gocql
